import Mathlib

/-!
Verification of the shape scale-then-outline task generator
(`src/generator.py` and `src/prompts.py`).

The development shallowly embeds the combinatorial core of the generator:

* the fixed catalogs declared in `TaskGenerator.__init__` (`base_shapes`,
  `shape_colors`, `scale_factors`, `fill_styles`);
* `_generate_all_valid_transformations`, which enumerates the quadruples
  `(scale_from, scale_to, style_from, style_to)`;
* the duplicate-prevention logic of `_generate_task_data` and
  `_generate_systematic_unique_combination`, modelled as a transition
  function on the set of previously generated combination keys, with the
  random draws supplied by an explicit oracle;
* the layout arithmetic of `_render_initial_state` / `_render_final_state`;
* the per-frame interpolation arithmetic of `_create_sequential_morph_frames`;
* the shape rasterizer `_draw_base_shape`, modelled as the list of drawing
  primitives it emits.

Python `float` arithmetic is modelled exactly over `ℚ` (the decimal literals
`0.8`, `0.2`, `0.4`, `0.7`, ... become the corresponding rationals), Python
`//` on integers is `Int.fdiv`, `//` on floats is `Int.floor` of the rational
quotient, and Python `int(...)` is truncation toward zero.  Calls to
`math.cos`/`math.sin` on an angle that is a rational multiple of `π` are
modelled by oracle functions `cospi sinpi : ℚ → ℚ` applied to the coefficient
of `π`; no theorem below depends on their values.
-/

set_option linter.constructorNameAsVariable false
set_option maxRecDepth 16384

/-! ## Data model -/

/-- An RGB color triple, as used in `TaskGenerator.shape_colors`. -/
abbrev Color := ℕ × ℕ × ℕ

/-- A transformation quadruple `(scale_from, scale_to, style_from, style_to)`. -/
abbrev Quad := String × String × String × String

/-- The 7-component uniqueness key built in `_generate_task_data`:
`(shape_example, shape_question, scale_from, scale_to, style_from, style_to, color)`. -/
structure CombinationKey where
  shape_example : String
  shape_question : String
  scale_from : String
  scale_to : String
  style_from : String
  style_to : String
  color : Color
deriving DecidableEq

/-- `TaskGenerator.base_shapes`: the 20 shape kinds. -/
def base_shapes : List String :=
  ["square", "triangle", "circle", "diamond", "pentagon", "hexagon",
   "rectangle", "oval", "star", "heart", "cross", "arrow", "trapezoid",
   "rhombus", "octagon", "crescent", "plus", "minus", "L_shape", "T_shape"]

/-- `TaskGenerator.shape_colors`: the 10-color palette. -/
def shape_colors : List Color :=
  [(70, 130, 180), (220, 20, 60), (50, 205, 50), (255, 140, 0), (128, 0, 128),
   (255, 20, 147), (0, 128, 0), (165, 42, 42), (75, 0, 130), (255, 165, 0)]

/-- `TaskGenerator.scale_factors`: insertion-ordered mapping from scale name to
multiplier (`0.6, 0.8, 1.0, 1.3, 1.6, 1.9` as exact rationals). -/
def scale_factors : List (String × ℚ) :=
  [("tiny", 3/5), ("small", 4/5), ("medium", 1), ("large", 13/10),
   ("extra_large", 8/5), ("huge", 19/10)]

/-- A fill-style record `{"fill": bool, "outline_width": int}`. -/
structure FillStyle where
  fill : Bool
  outline_width : ℕ
deriving DecidableEq

/-- `TaskGenerator.fill_styles`: insertion-ordered mapping from style name to
its configuration. -/
def fill_styles : List (String × FillStyle) :=
  [("filled", ⟨true, 2⟩), ("outline", ⟨false, 3⟩),
   ("thick_outline", ⟨false, 5⟩), ("thin_outline", ⟨false, 1⟩)]

/-- `list(self.scale_factors.keys())` in `_generate_all_valid_transformations`. -/
def scale_names : List String := scale_factors.map Prod.fst

/-- `list(self.fill_styles.keys())` in `_generate_all_valid_transformations`. -/
def style_names : List String := fill_styles.map Prod.fst

/-- `TaskGenerator._generate_all_valid_transformations`: nested loops over
scale names and style names, keeping the quadruples whose scales differ and
whose styles differ, in loop order. -/
def generate_all_valid_transformations (scales styles : List String) : List Quad :=
  scales.flatMap fun scale_from =>
    scales.flatMap fun scale_to =>
      if scale_from ≠ scale_to then
        styles.flatMap fun style_from =>
          styles.flatMap fun style_to =>
            if style_from ≠ style_to then
              [(scale_from, scale_to, style_from, style_to)]
            else []
      else []

/-- `self.valid_transformations`, as computed in `TaskGenerator.__init__`. -/
def valid_transformations : List Quad :=
  generate_all_valid_transformations scale_names style_names

/-!
## The combination tracker (`_generate_task_data` and the systematic sweep)

`self.generated_combinations` is a Python set of combination keys, modelled
as a `Finset CombinationKey`.  The random draws made by one call to
`_generate_task_data` (`random.sample` / `random.choice`) are supplied by an
explicit `Oracle`: `attempts` lists the candidate keys built inside the
bounded retry loop (1000 draws in the source), and `fallback` is the key
drawn in the unrestricted branch after exhaustion.  A `RuntimeError` from
`_generate_systematic_unique_combination` is modelled as `none`.
-/

/-- `max_unique_combinations` in `_generate_task_data`:
`num_shapes * (num_shapes - 1) * num_transformations * num_colors`. -/
def capacity : ℕ :=
  base_shapes.length * (base_shapes.length - 1) *
    valid_transformations.length * shape_colors.length

/-- The bounded random-retry loop of `_generate_task_data`: return the first
candidate key not already in `seen` (scanning the oracle's draws in order),
or `none` if every attempt collides. -/
def find_unique_attempt (seen : Finset CombinationKey) :
    List CombinationKey → Option CombinationKey
  | [] => none
  | k :: ks => if k ∈ seen then find_unique_attempt seen ks else some k

/-- The deterministic enumeration order of
`_generate_systematic_unique_combination`: shape pairs (skipping equal
pairs) × transformation quadruples × colors, in loop order. -/
def all_combination_keys : List CombinationKey :=
  base_shapes.flatMap fun shape_example =>
    base_shapes.flatMap fun shape_question =>
      if shape_example = shape_question then []
      else
        valid_transformations.flatMap fun q =>
          shape_colors.map fun color =>
            ⟨shape_example, shape_question, q.1, q.2.1, q.2.2.1, q.2.2.2, color⟩

/-- `TaskGenerator._generate_systematic_unique_combination`: return the first
enumerated key not in `seen` together with the updated seen-set, or `none`
for the `RuntimeError` branch. -/
def generate_systematic_unique_combination (seen : Finset CombinationKey) :
    Option (CombinationKey × Finset CombinationKey) :=
  match all_combination_keys.find? (fun k => decide (k ∉ seen)) with
  | some k => some (k, insert k seen)
  | none => none

/-- The random draws consumed by one call to `_generate_task_data`. -/
structure Oracle where
  attempts : List CombinationKey
  fallback : CombinationKey

/-- Observable outcome of one `_generate_task_data` call: the combination key
of the returned task (`none` for the `RuntimeError` branch), the updated
seen-set, and whether the exhaustion warning was printed. -/
structure StepResult where
  ret : Option CombinationKey
  seen : Finset CombinationKey
  warned : Bool

/-- `TaskGenerator._generate_task_data`: below capacity, try the bounded
random attempts, falling back to the systematic sweep; at or above capacity,
print the warning when `len(seen) == capacity` and return an unrestricted
draw without recording it. -/
def generate_task_data (seen : Finset CombinationKey) (o : Oracle) : StepResult :=
  if seen.card < capacity then
    match find_unique_attempt seen o.attempts with
    | some k => ⟨some k, insert k seen, false⟩
    | none =>
      match generate_systematic_unique_combination seen with
      | some (k, seen') => ⟨some k, seen', false⟩
      | none => ⟨none, seen, false⟩
  else
    ⟨some o.fallback, seen, decide (seen.card = capacity)⟩

/-- Seen-set after a sequence of `_generate_task_data` calls with the given
per-call oracles. -/
def seen_after (seen : Finset CombinationKey) : List Oracle → Finset CombinationKey
  | [] => seen
  | o :: os => seen_after (generate_task_data seen o).seen os

/-- Repack an off-diagonal shape pair, a quadruple and a color into the flat
7-tuple key used by `_generate_task_data`. -/
def flatten_key (p : (String × String) × Quad × Color) : CombinationKey :=
  ⟨p.1.1, p.1.2, p.2.1.1, p.2.1.2.1, p.2.1.2.2.1, p.2.1.2.2.2, p.2.2⟩

/-- The full space of valid combination keys. -/
def all_valid_keys : Finset CombinationKey :=
  (base_shapes.toFinset.offDiag ×ˢ
    (valid_transformations.toFinset ×ˢ shape_colors.toFinset)).image flatten_key

/-!
## Layout (`_render_initial_state` / `_render_final_state`)

Both renderers compute the same `positions` dictionary; the embedding keeps
one definition per renderer, mirroring the duplicated source code.  `width`,
`height` and `margin` come from the configuration (`config.image_size`,
`config.margin`).
-/

/-- Slot centers computed in `_render_initial_state`. -/
structure InitialPositions where
  A : ℚ × ℚ
  arrow1 : ℚ × ℚ
  B : ℚ × ℚ
  arrow2 : ℚ × ℚ
  C : ℚ × ℚ
  D : ℚ × ℚ
  arrow3 : ℚ × ℚ
  question1 : ℚ × ℚ
  arrow4 : ℚ × ℚ
  question2 : ℚ × ℚ

/-- Slot centers computed in `_render_final_state`. -/
structure FinalPositions where
  A : ℚ × ℚ
  arrow1 : ℚ × ℚ
  B : ℚ × ℚ
  arrow2 : ℚ × ℚ
  C : ℚ × ℚ
  D : ℚ × ℚ
  arrow3 : ℚ × ℚ
  E : ℚ × ℚ
  arrow4 : ℚ × ℚ
  F : ℚ × ℚ

/-- `step_width = total_content_width // 3` with
`total_content_width = width - 2 * margin` (computed identically in both
renderers). -/
def step_width (width margin : ℤ) : ℤ := (width - 2 * margin).fdiv 3

/-- `shape_spacing = step_width * 0.8`. -/
def shape_spacing (width margin : ℤ) : ℚ := (step_width width margin : ℚ) * (4/5)

/-- `arrow_width = step_width * 0.2`. -/
def arrow_width (width margin : ℤ) : ℚ := (step_width width margin : ℚ) * (1/5)

/-- The `positions` dictionary of `_render_initial_state`. -/
def render_initial_positions (width height margin : ℤ) : InitialPositions :=
  let shape_spacing : ℚ := shape_spacing width margin
  let arrow_width : ℚ := arrow_width width margin
  let y1 : ℚ := ((height.fdiv 3 : ℤ) : ℚ)
  let y2 : ℚ := (((2 * height).fdiv 3 : ℤ) : ℚ)
  { A := ((margin : ℚ) + ↑⌊shape_spacing / 2⌋, y1),
    arrow1 := ((margin : ℚ) + shape_spacing + ↑⌊arrow_width / 2⌋, y1),
    B := ((margin : ℚ) + shape_spacing + arrow_width + ↑⌊shape_spacing / 2⌋, y1),
    arrow2 := ((margin : ℚ) + 2 * shape_spacing + arrow_width + ↑⌊arrow_width / 2⌋, y1),
    C := ((margin : ℚ) + 2 * shape_spacing + 2 * arrow_width + ↑⌊shape_spacing / 2⌋, y1),
    D := ((margin : ℚ) + ↑⌊shape_spacing / 2⌋, y2),
    arrow3 := ((margin : ℚ) + shape_spacing + ↑⌊arrow_width / 2⌋, y2),
    question1 := ((margin : ℚ) + shape_spacing + arrow_width + ↑⌊shape_spacing / 2⌋, y2),
    arrow4 := ((margin : ℚ) + 2 * shape_spacing + arrow_width + ↑⌊arrow_width / 2⌋, y2),
    question2 := ((margin : ℚ) + 2 * shape_spacing + 2 * arrow_width + ↑⌊shape_spacing / 2⌋, y2) }

/-- The `positions` dictionary of `_render_final_state`. -/
def render_final_positions (width height margin : ℤ) : FinalPositions :=
  let shape_spacing : ℚ := shape_spacing width margin
  let arrow_width : ℚ := arrow_width width margin
  let y1 : ℚ := ((height.fdiv 3 : ℤ) : ℚ)
  let y2 : ℚ := (((2 * height).fdiv 3 : ℤ) : ℚ)
  { A := ((margin : ℚ) + ↑⌊shape_spacing / 2⌋, y1),
    arrow1 := ((margin : ℚ) + shape_spacing + ↑⌊arrow_width / 2⌋, y1),
    B := ((margin : ℚ) + shape_spacing + arrow_width + ↑⌊shape_spacing / 2⌋, y1),
    arrow2 := ((margin : ℚ) + 2 * shape_spacing + arrow_width + ↑⌊arrow_width / 2⌋, y1),
    C := ((margin : ℚ) + 2 * shape_spacing + 2 * arrow_width + ↑⌊shape_spacing / 2⌋, y1),
    D := ((margin : ℚ) + ↑⌊shape_spacing / 2⌋, y2),
    arrow3 := ((margin : ℚ) + shape_spacing + ↑⌊arrow_width / 2⌋, y2),
    E := ((margin : ℚ) + shape_spacing + arrow_width + ↑⌊shape_spacing / 2⌋, y2),
    arrow4 := ((margin : ℚ) + 2 * shape_spacing + arrow_width + ↑⌊arrow_width / 2⌋, y2),
    F := ((margin : ℚ) + 2 * shape_spacing + 2 * arrow_width + ↑⌊shape_spacing / 2⌋, y2) }

/-!
## Animation interpolation (`_create_sequential_morph_frames`)
-/

/-- `progress = i / (step_frames - 1) if step_frames > 1 else 1.0`. -/
def step_progress (step_frames i : ℕ) : ℚ :=
  if 1 < step_frames then (i : ℚ) / ((step_frames - 1 : ℕ) : ℚ) else 1

/-- Python `int(...)` on a float: truncation toward zero. -/
def int_of_rat (q : ℚ) : ℤ := if 0 ≤ q then ⌊q⌋ else -⌊-q⌋

/-- `current_size` of frame `i` in the scale-reveal phase:
`int(base_shape_size * (scale_from + (scale_to - scale_from) * progress))`. -/
def scale_phase_size (base_shape_size : ℤ) (scale_from scale_to : ℚ)
    (step_frames i : ℕ) : ℤ :=
  int_of_rat ((base_shape_size : ℚ) *
    (scale_from + (scale_to - scale_from) * step_progress step_frames i))

/-- A fill argument passed to a drawing primitive: an RGB triple or an RGBA
quadruple. -/
inductive Paint where
  | rgb (c : Color)
  | rgba (c : Color) (alpha : ℤ)
deriving DecidableEq

/-- The fill/outline parameters used for the second unknown in frame `i` of
the style-reveal phase. -/
structure StylePhaseDraw where
  fill : Option Paint
  outline_width : ℕ
deriving DecidableEq

/-- The fill/outline computation of the style-reveal phase: below the midpoint
the fill keeps the pre-transformation outline width and fades via the RGBA
alpha `int(255 * (1 - progress * 2))`; from the midpoint on the fill is absent
and the outline width is the post-transformation one. -/
def style_phase_draw (color : Color) (style_from_config style_to_config : FillStyle)
    (step_frames i : ℕ) : StylePhaseDraw :=
  let progress := step_progress step_frames i
  if progress < 1/2 then
    ⟨some (Paint.rgba color (int_of_rat (255 * (1 - progress * 2)))),
      style_from_config.outline_width⟩
  else
    ⟨none, style_to_config.outline_width⟩

/-!
## The shape rasterizer (`_draw_base_shape`)

The rasterizer is modelled as the list of drawing primitives it submits to the
canvas, in order.  The if/elif dispatch of the source ends without an `else`
branch: a shape name matching no branch produces no drawing operation and the
function returns normally.
-/

/-- One canvas drawing primitive call. -/
inductive DrawOp where
  | rect (x0 y0 x1 y1 : ℚ) (fill : Option Paint) (outline : Color) (width : ℕ)
  | ellipse (x0 y0 x1 y1 : ℚ) (fill : Option Paint) (outline : Color) (width : ℕ)
  | polygon (points : List (ℚ × ℚ)) (fill : Option Paint) (outline : Color) (width : ℕ)
deriving DecidableEq

/-- `TaskGenerator._draw_base_shape`, branch by branch in source order. -/
def draw_base_shape (shape : String) (x y : ℚ) (size : ℤ)
    (fill_color : Option Paint) (outline_color : Color) (outline_width : ℕ)
    (cospi sinpi : ℚ → ℚ) : List DrawOp :=
  let half_size : ℤ := size.fdiv 2
  if shape = "square" then
    [.rect (x - half_size) (y - half_size) (x + half_size) (y + half_size)
      fill_color outline_color outline_width]
  else if shape = "circle" then
    [.ellipse (x - half_size) (y - half_size) (x + half_size) (y + half_size)
      fill_color outline_color outline_width]
  else if shape = "triangle" then
    [.polygon [(x, y - half_size), (x - half_size, y + half_size),
      (x + half_size, y + half_size)] fill_color outline_color outline_width]
  else if shape = "diamond" then
    [.polygon [(x, y - half_size), (x + half_size, y), (x, y + half_size),
      (x - half_size, y)] fill_color outline_color outline_width]
  else if shape = "pentagon" then
    [.polygon ((List.range 5).map fun i =>
      (x + (half_size : ℚ) * cospi ((i : ℚ) * 2 / 5 - 1/2),
       y + (half_size : ℚ) * sinpi ((i : ℚ) * 2 / 5 - 1/2)))
      fill_color outline_color outline_width]
  else if shape = "hexagon" then
    [.polygon ((List.range 6).map fun i =>
      (x + (half_size : ℚ) * cospi ((i : ℚ) * 2 / 6),
       y + (half_size : ℚ) * sinpi ((i : ℚ) * 2 / 6)))
      fill_color outline_color outline_width]
  else if shape = "rectangle" then
    let rect_width : ℤ := int_of_rat ((half_size : ℚ) * (7/5))
    let rect_height : ℤ := int_of_rat ((half_size : ℚ) * (7/10))
    [.rect (x - rect_width) (y - rect_height) (x + rect_width) (y + rect_height)
      fill_color outline_color outline_width]
  else if shape = "oval" then
    let oval_width : ℤ := int_of_rat ((half_size : ℚ) * (7/5))
    let oval_height : ℤ := int_of_rat ((half_size : ℚ) * (7/10))
    [.ellipse (x - oval_width) (y - oval_height) (x + oval_width) (y + oval_height)
      fill_color outline_color outline_width]
  else if shape = "star" then
    [.polygon ((List.range 10).map fun i =>
      if i % 2 = 0 then
        (x + (half_size : ℚ) * cospi ((i : ℚ) / 5 - 1/2),
         y + (half_size : ℚ) * sinpi ((i : ℚ) / 5 - 1/2))
      else
        (x + (half_size : ℚ) * (2/5) * cospi ((i : ℚ) / 5 - 1/2),
         y + (half_size : ℚ) * (2/5) * sinpi ((i : ℚ) / 5 - 1/2)))
      fill_color outline_color outline_width]
  else if shape = "heart" then
    [.polygon [(x, y + half_size),
      (x - (half_size : ℚ) * (7/10), y),
      (x - (half_size : ℚ) * (3/10), y - (half_size : ℚ) * (1/2)),
      (x, y - (half_size : ℚ) * (1/5)),
      (x + (half_size : ℚ) * (3/10), y - (half_size : ℚ) * (1/2)),
      (x + (half_size : ℚ) * (7/10), y)] fill_color outline_color outline_width]
  else if shape = "cross" then
    let thickness : ℤ := half_size.fdiv 4
    [.rect (x - thickness) (y - half_size) (x + thickness) (y + half_size)
      fill_color outline_color outline_width,
     .rect (x - half_size) (y - thickness) (x + half_size) (y + thickness)
      fill_color outline_color outline_width]
  else if shape = "arrow" then
    [.polygon [(x - half_size, y - (half_size.fdiv 2 : ℤ)),
      (x, y - (half_size.fdiv 2 : ℤ)),
      (x, y - half_size),
      (x + half_size, y),
      (x, y + half_size),
      (x, y + (half_size.fdiv 2 : ℤ)),
      (x - half_size, y + (half_size.fdiv 2 : ℤ))]
      fill_color outline_color outline_width]
  else if shape = "trapezoid" then
    let top_width : ℤ := half_size.fdiv 2
    [.polygon [(x - top_width, y - half_size), (x + top_width, y - half_size),
      (x + half_size, y + half_size), (x - half_size, y + half_size)]
      fill_color outline_color outline_width]
  else if shape = "rhombus" then
    [.polygon [(x, y - half_size),
      (x + (half_size : ℚ) * (7/10), y),
      (x, y + half_size),
      (x - (half_size : ℚ) * (7/10), y)] fill_color outline_color outline_width]
  else if shape = "octagon" then
    [.polygon ((List.range 8).map fun i =>
      (x + (half_size : ℚ) * cospi ((i : ℚ) * 2 / 8),
       y + (half_size : ℚ) * sinpi ((i : ℚ) * 2 / 8)))
      fill_color outline_color outline_width]
  else if shape = "crescent" then
    let offset : ℤ := half_size.fdiv 3
    let smaller_radius : ℤ := int_of_rat ((half_size : ℚ) * (7/10))
    [.ellipse (x - half_size) (y - half_size) (x + half_size) (y + half_size)
      fill_color outline_color outline_width,
     .ellipse (x - smaller_radius + offset) (y - smaller_radius)
      (x + smaller_radius + offset) (y + smaller_radius)
      (some (Paint.rgb (255, 255, 255))) outline_color outline_width]
  else if shape = "plus" then
    let thickness : ℤ := half_size.fdiv 3
    [.rect (x - thickness) (y - half_size) (x + thickness) (y + half_size)
      fill_color outline_color outline_width,
     .rect (x - half_size) (y - thickness) (x + half_size) (y + thickness)
      fill_color outline_color outline_width]
  else if shape = "minus" then
    let thickness : ℤ := half_size.fdiv 4
    [.rect (x - half_size) (y - thickness) (x + half_size) (y + thickness)
      fill_color outline_color outline_width]
  else if shape = "L_shape" then
    let thickness : ℤ := half_size.fdiv 3
    [.rect (x - half_size) (y - half_size) (x - half_size + thickness) (y + half_size)
      fill_color outline_color outline_width,
     .rect (x - half_size) (y + half_size - thickness) (x + half_size) (y + half_size)
      fill_color outline_color outline_width]
  else if shape = "T_shape" then
    let thickness : ℤ := half_size.fdiv 3
    [.rect (x - half_size) (y - half_size) (x + half_size) (y - half_size + thickness)
      fill_color outline_color outline_width,
     .rect (x - (thickness.fdiv 2 : ℤ)) (y - half_size) (x + (thickness.fdiv 2 : ℤ))
      (y + half_size) fill_color outline_color outline_width]
  else []

/-! ## Lemmas and theorems -/

lemma mem_generate_all_valid_transformations (scales styles : List String) (q : Quad) :
    q ∈ generate_all_valid_transformations scales styles ↔
      q.1 ∈ scales ∧ q.2.1 ∈ scales ∧ q.1 ≠ q.2.1 ∧
      q.2.2.1 ∈ styles ∧ q.2.2.2 ∈ styles ∧ q.2.2.1 ≠ q.2.2.2 := by
  obtain ⟨a, b, c, d⟩ := q
  simp only [generate_all_valid_transformations, List.mem_flatMap]
  constructor
  · rintro ⟨sf, hsf, st, hst, h⟩
    by_cases hne : sf ≠ st
    · rw [if_pos hne] at h
      obtain ⟨yf, hyf, h⟩ := List.mem_flatMap.mp h
      obtain ⟨yt, hyt, h⟩ := List.mem_flatMap.mp h
      by_cases hne2 : yf ≠ yt
      · rw [if_pos hne2] at h
        simp only [List.mem_singleton, Prod.mk.injEq] at h
        obtain ⟨rfl, rfl, rfl, rfl⟩ := h
        exact ⟨hsf, hst, hne, hyf, hyt, hne2⟩
      · rw [if_neg hne2] at h
        exact absurd h (List.not_mem_nil _)
    · rw [if_neg hne] at h
      exact absurd h (List.not_mem_nil _)
  · rintro ⟨ha, hb, hab, hc, hd, hcd⟩
    refine ⟨a, ha, b, hb, ?_⟩
    rw [if_pos hab]
    refine List.mem_flatMap.mpr ⟨c, hc, ?_⟩
    refine List.mem_flatMap.mpr ⟨d, hd, ?_⟩
    rw [if_pos hcd]
    exact List.mem_singleton.mpr rfl

set_option maxRecDepth 4096 in
/-- C4: `_generate_all_valid_transformations` returns exactly the quadruples
over the 6-scale / 4-style catalogs with `scale_from ≠ scale_to` and
`style_from ≠ style_to`; every element satisfies both inequalities and there
are exactly `6·5·4·3 = 360` of them. -/
theorem valid_transformations_spec :
    (∀ q ∈ valid_transformations, q.1 ≠ q.2.1 ∧ q.2.2.1 ≠ q.2.2.2) ∧
    valid_transformations.length = 360 ∧
    (∀ a b c d : String,
      (a, b, c, d) ∈ valid_transformations ↔
        a ∈ scale_names ∧ b ∈ scale_names ∧ a ≠ b ∧
        c ∈ style_names ∧ d ∈ style_names ∧ c ≠ d) := by
  refine ⟨?_, by decide, ?_⟩
  · intro q hq
    have h := (mem_generate_all_valid_transformations scale_names style_names q).mp hq
    exact ⟨h.2.2.1, h.2.2.2.2.2⟩
  · intro a b c d
    exact mem_generate_all_valid_transformations scale_names style_names (a, b, c, d)

/-- Witness for C4 at the concrete quadruple `("tiny","huge","filled","outline")`. -/
theorem valid_transformations_spec_witness :
    ("tiny", "huge", "filled", "outline") ∈ valid_transformations ∧
    ("tiny" : String) ≠ "huge" ∧ ("filled" : String) ≠ "outline" := by
  refine ⟨?_, ?_⟩
  · exact (valid_transformations_spec.2.2 "tiny" "huge" "filled" "outline").mpr (by decide)
  · exact valid_transformations_spec.1 ("tiny", "huge", "filled", "outline")
      ((valid_transformations_spec.2.2 "tiny" "huge" "filled" "outline").mpr (by decide))

/-! ### Counting the key space -/

lemma base_shapes_nodup : base_shapes.Nodup := by decide

lemma shape_colors_nodup : shape_colors.Nodup := by decide

lemma scale_names_nodup : scale_names.Nodup := by decide

lemma style_names_nodup : style_names.Nodup := by decide

/-- A `flatMap` whose branches are nodup and whose elements each record the
branch they came from (via `g`) is nodup. -/
lemma nodup_flatMap_tagged {α β : Type _} {l : List α} {f : α → List β} (g : β → α)
    (hl : l.Nodup) (hbranch : ∀ a ∈ l, (f a).Nodup)
    (htag : ∀ a ∈ l, ∀ x ∈ f a, g x = a) :
    (l.flatMap f).Nodup := by
  rw [List.nodup_flatMap]
  refine ⟨hbranch, ?_⟩
  refine List.Pairwise.imp_of_mem ?_ hl
  intro a b ha hb hne
  intro x hxa hxb
  exact hne (by rw [← htag a ha x hxa, htag b hb x hxb])

lemma valid_transformations_nodup : valid_transformations.Nodup := by
  have hsc := scale_names_nodup
  have hst := style_names_nodup
  unfold valid_transformations generate_all_valid_transformations
  refine nodup_flatMap_tagged (fun q => q.1) hsc (fun a _ => ?_) (fun a _ x hx => ?_)
  · refine nodup_flatMap_tagged (fun q => q.2.1) hsc (fun b _ => ?_) (fun b _ x hx => ?_)
    · by_cases hab : a ≠ b
      · rw [if_pos hab]
        refine nodup_flatMap_tagged (fun q => q.2.2.1) hst (fun c _ => ?_) (fun c _ x hx => ?_)
        · refine nodup_flatMap_tagged (fun q => q.2.2.2) hst (fun d _ => ?_) (fun d _ x hx => ?_)
          · by_cases hcd : c ≠ d
            · rw [if_pos hcd]; exact List.nodup_singleton _
            · rw [if_neg hcd]; exact List.nodup_nil
          · by_cases hcd : c ≠ d
            · rw [if_pos hcd] at hx
              obtain rfl := List.mem_singleton.mp hx
              rfl
            · rw [if_neg hcd] at hx
              exact absurd hx (List.not_mem_nil _)
        · obtain ⟨d, _, hx⟩ := List.mem_flatMap.mp hx
          by_cases hcd : c ≠ d
          · rw [if_pos hcd] at hx
            obtain rfl := List.mem_singleton.mp hx
            rfl
          · rw [if_neg hcd] at hx
            exact absurd hx (List.not_mem_nil _)
      · rw [if_neg hab]; exact List.nodup_nil
    · by_cases hab : a ≠ b
      · rw [if_pos hab] at hx
        obtain ⟨c, _, hx⟩ := List.mem_flatMap.mp hx
        obtain ⟨d, _, hx⟩ := List.mem_flatMap.mp hx
        by_cases hcd : c ≠ d
        · rw [if_pos hcd] at hx
          obtain rfl := List.mem_singleton.mp hx
          rfl
        · rw [if_neg hcd] at hx
          exact absurd hx (List.not_mem_nil _)
      · rw [if_neg hab] at hx
        exact absurd hx (List.not_mem_nil _)
  · obtain ⟨b, _, hx⟩ := List.mem_flatMap.mp hx
    by_cases hab : a ≠ b
    · rw [if_pos hab] at hx
      obtain ⟨c, _, hx⟩ := List.mem_flatMap.mp hx
      obtain ⟨d, _, hx⟩ := List.mem_flatMap.mp hx
      by_cases hcd : c ≠ d
      · rw [if_pos hcd] at hx
        obtain rfl := List.mem_singleton.mp hx
        rfl
      · rw [if_neg hcd] at hx
        exact absurd hx (List.not_mem_nil _)
    · rw [if_neg hab] at hx
      exact absurd hx (List.not_mem_nil _)

lemma flatten_key_injective : Function.Injective flatten_key := by
  rintro ⟨⟨a, b⟩, ⟨c, d, e, f⟩, g⟩ ⟨⟨a', b'⟩, ⟨c', d', e', f'⟩, g'⟩ h
  simp only [flatten_key, CombinationKey.mk.injEq] at h
  obtain ⟨rfl, rfl, rfl, rfl, rfl, rfl, rfl⟩ := h
  rfl

lemma all_valid_keys_card : all_valid_keys.card = capacity := by
  rw [all_valid_keys, Finset.card_image_of_injective _ flatten_key_injective,
    Finset.card_product, Finset.card_product, Finset.offDiag_card,
    List.toFinset_card_of_nodup base_shapes_nodup,
    List.toFinset_card_of_nodup valid_transformations_nodup,
    List.toFinset_card_of_nodup shape_colors_nodup]
  rw [capacity, valid_transformations_spec.2.1]
  decide

lemma mem_all_combination_keys_of_valid :
    ∀ k ∈ all_valid_keys, k ∈ all_combination_keys := by
  intro k hk
  rw [all_valid_keys, Finset.mem_image] at hk
  obtain ⟨p, hp, hpk⟩ := hk
  rw [Finset.mem_product, Finset.mem_product, Finset.mem_offDiag] at hp
  obtain ⟨⟨ha, hb, hab⟩, hq, hc⟩ := hp
  rw [List.mem_toFinset] at ha hb hq hc
  subst hpk
  refine List.mem_flatMap.mpr ⟨p.1.1, ha, ?_⟩
  refine List.mem_flatMap.mpr ⟨p.1.2, hb, ?_⟩
  rw [if_neg hab]
  refine List.mem_flatMap.mpr ⟨p.2.1, hq, ?_⟩
  exact List.mem_map.mpr ⟨p.2.2, hc, rfl⟩

set_option maxRecDepth 16384 in
set_option maxHeartbeats 1000000 in
/-- C2: whenever `|seen| < capacity`, the systematic sweep returns a key that
is not yet in the seen-set (inserting it), so its `RuntimeError` branch is
unreachable under that precondition. -/
theorem systematic_sweep_succeeds (seen : Finset CombinationKey)
    (h : seen.card < capacity) :
    ∃ k, generate_systematic_unique_combination seen = some (k, insert k seen) ∧
      k ∉ seen := by
  cases hf : all_combination_keys.find? (fun k => decide (k ∉ seen)) with
  | none =>
    exfalso
    have hall : ∀ k ∈ all_combination_keys, k ∈ seen := by
      intro k hk
      have := List.find?_eq_none.mp hf k hk
      simpa using this
    have hsub : all_valid_keys ⊆ seen := fun k hk =>
      hall k (mem_all_combination_keys_of_valid k hk)
    have hcard := Finset.card_le_card hsub
    rw [all_valid_keys_card] at hcard
    omega
  | some k =>
    have hp := List.find?_some hf
    have hk : k ∉ seen := by simpa using hp
    refine ⟨k, ?_, hk⟩
    rw [generate_systematic_unique_combination, hf]

set_option maxRecDepth 16384 in
set_option maxHeartbeats 1000000 in
/-- Witness for C2 at the empty seen-set. -/
theorem systematic_sweep_succeeds_witness :
    ∃ k, generate_systematic_unique_combination ∅ = some (k, insert k ∅) ∧
      k ∉ (∅ : Finset CombinationKey) :=
  systematic_sweep_succeeds ∅ (by decide)

/-! ### Single-call behaviour of `_generate_task_data` -/

lemma find_unique_attempt_not_mem {seen : Finset CombinationKey} :
    ∀ {l : List CombinationKey} {k : CombinationKey},
      find_unique_attempt seen l = some k → k ∉ seen := by
  intro l
  induction l with
  | nil =>
    intro k h
    simp only [find_unique_attempt] at h
    exact Option.noConfusion h
  | cons a l ih =>
    intro k h
    simp only [find_unique_attempt] at h
    by_cases ha : a ∈ seen
    · rw [if_pos ha] at h
      exact ih h
    · rw [if_neg ha] at h
      obtain rfl := Option.some.inj h
      exact ha

lemma generate_systematic_unique_combination_some
    {seen seen' : Finset CombinationKey} {k : CombinationKey}
    (h : generate_systematic_unique_combination seen = some (k, seen')) :
    k ∉ seen ∧ seen' = insert k seen := by
  unfold generate_systematic_unique_combination at h
  cases hf : all_combination_keys.find? (fun k => decide (k ∉ seen)) with
  | none =>
    rw [hf] at h
    exact absurd h (by simp)
  | some k2 =>
    rw [hf] at h
    have hp : k2 ∉ seen := by simpa using List.find?_some hf
    have heq := Option.some.inj h
    obtain ⟨rfl, rfl⟩ : k2 = k ∧ insert k2 seen = seen' :=
      ⟨congrArg Prod.fst heq, congrArg Prod.snd heq⟩
    exact ⟨hp, rfl⟩

lemma generate_task_data_at_capacity {seen : Finset CombinationKey} (o : Oracle)
    (hc : ¬ seen.card < capacity) :
    generate_task_data seen o =
      ⟨some o.fallback, seen, decide (seen.card = capacity)⟩ := by
  unfold generate_task_data
  rw [if_neg hc]

lemma generate_task_data_below {seen : Finset CombinationKey} {o : Oracle}
    {k : CombinationKey} (hc : seen.card < capacity)
    (h : (generate_task_data seen o).ret = some k) :
    k ∉ seen ∧ (generate_task_data seen o).seen = insert k seen := by
  cases hfa : find_unique_attempt seen o.attempts with
  | some k1 =>
    have hgen : generate_task_data seen o = ⟨some k1, insert k1 seen, false⟩ := by
      unfold generate_task_data
      rw [if_pos hc, hfa]
    rw [hgen] at h
    obtain rfl := Option.some.inj h
    exact ⟨find_unique_attempt_not_mem hfa, by rw [hgen]⟩
  | none =>
    cases hsw : generate_systematic_unique_combination seen with
    | some p =>
      obtain ⟨k1, s1⟩ := p
      have hspec := generate_systematic_unique_combination_some hsw
      have hgen : generate_task_data seen o = ⟨some k1, s1, false⟩ := by
        unfold generate_task_data
        rw [if_pos hc, hfa, hsw]
      rw [hgen] at h
      obtain rfl := Option.some.inj h
      exact ⟨hspec.1, by rw [hgen]; exact hspec.2⟩
    | none =>
      have hgen : generate_task_data seen o = ⟨none, seen, false⟩ := by
        unfold generate_task_data
        rw [if_pos hc, hfa, hsw]
      rw [hgen] at h
      cases h

lemma generate_task_data_warned_below {seen : Finset CombinationKey} (o : Oracle)
    (hc : seen.card < capacity) :
    (generate_task_data seen o).warned = false := by
  cases hfa : find_unique_attempt seen o.attempts with
  | some k1 =>
    have hgen : generate_task_data seen o = ⟨some k1, insert k1 seen, false⟩ := by
      unfold generate_task_data
      rw [if_pos hc, hfa]
    rw [hgen]
  | none =>
    cases hsw : generate_systematic_unique_combination seen with
    | some p =>
      obtain ⟨k1, s1⟩ := p
      have hgen : generate_task_data seen o = ⟨some k1, s1, false⟩ := by
        unfold generate_task_data
        rw [if_pos hc, hfa, hsw]
      rw [hgen]
    | none =>
      have hgen : generate_task_data seen o = ⟨none, seen, false⟩ := by
        unfold generate_task_data
        rw [if_pos hc, hfa, hsw]
      rw [hgen]

lemma generate_task_data_subset (seen : Finset CombinationKey) (o : Oracle) :
    seen ⊆ (generate_task_data seen o).seen := by
  by_cases hc : seen.card < capacity
  · cases hfa : find_unique_attempt seen o.attempts with
    | some k1 =>
      have hgen : generate_task_data seen o = ⟨some k1, insert k1 seen, false⟩ := by
        unfold generate_task_data
        rw [if_pos hc, hfa]
      rw [hgen]
      exact Finset.subset_insert _ _
    | none =>
      cases hsw : generate_systematic_unique_combination seen with
      | some p =>
        obtain ⟨k1, s1⟩ := p
        have hspec := generate_systematic_unique_combination_some hsw
        have hgen : generate_task_data seen o = ⟨some k1, s1, false⟩ := by
          unfold generate_task_data
          rw [if_pos hc, hfa, hsw]
        rw [hgen]
        rw [hspec.2]
        exact Finset.subset_insert _ _
      | none =>
        have hgen : generate_task_data seen o = ⟨none, seen, false⟩ := by
          unfold generate_task_data
          rw [if_pos hc, hfa, hsw]
        rw [hgen]
  · rw [generate_task_data_at_capacity o hc]

lemma generate_task_data_card_le {seen : Finset CombinationKey} (o : Oracle)
    (hc : seen.card ≤ capacity) :
    (generate_task_data seen o).seen.card ≤ capacity := by
  by_cases hlt : seen.card < capacity
  · cases hfa : find_unique_attempt seen o.attempts with
    | some k1 =>
      have hgen : generate_task_data seen o = ⟨some k1, insert k1 seen, false⟩ := by
        unfold generate_task_data
        rw [if_pos hlt, hfa]
      rw [hgen]
      dsimp only
      have := Finset.card_insert_le k1 seen
      omega
    | none =>
      cases hsw : generate_systematic_unique_combination seen with
      | some p =>
        obtain ⟨k1, s1⟩ := p
        have hspec := generate_systematic_unique_combination_some hsw
        have hgen : generate_task_data seen o = ⟨some k1, s1, false⟩ := by
          unfold generate_task_data
          rw [if_pos hlt, hfa, hsw]
        rw [hgen]
        dsimp only
        rw [hspec.2]
        have := Finset.card_insert_le k1 seen
        omega
      | none =>
        have hgen : generate_task_data seen o = ⟨none, seen, false⟩ := by
          unfold generate_task_data
          rw [if_pos hlt, hfa, hsw]
        rw [hgen]
        exact hc
  · rw [generate_task_data_at_capacity o hlt]
    exact hc

/-! ### Traces of calls -/

lemma seen_after_subset (os : List Oracle) :
    ∀ seen : Finset CombinationKey, seen ⊆ seen_after seen os := by
  induction os with
  | nil =>
    intro seen
    exact Finset.Subset.refl seen
  | cons o os ih =>
    intro seen
    exact (generate_task_data_subset seen o).trans (ih _)

lemma seen_after_append (os1 os2 : List Oracle) :
    ∀ seen : Finset CombinationKey,
      seen_after seen (os1 ++ os2) = seen_after (seen_after seen os1) os2 := by
  induction os1 with
  | nil => intro seen; rfl
  | cons o os ih =>
    intro seen
    simp only [List.cons_append, seen_after]
    exact ih _

lemma seen_after_card_le (os : List Oracle) :
    ∀ {seen : Finset CombinationKey}, seen.card ≤ capacity →
      (seen_after seen os).card ≤ capacity := by
  induction os with
  | nil => intro seen h; exact h
  | cons o os ih =>
    intro seen h
    exact ih (generate_task_data_card_le o h)

lemma seen_after_at_capacity (os : List Oracle) :
    ∀ {seen : Finset CombinationKey}, ¬ seen.card < capacity →
      seen_after seen os = seen := by
  induction os with
  | nil => intro seen _; rfl
  | cons o os ih =>
    intro seen hc
    simp only [seen_after]
    rw [generate_task_data_at_capacity o hc]
    exact ih hc

/-- C1: the seen-set of `_generate_task_data` only ever grows, and while the
seen-set is strictly below capacity no two calls in a run return the same
combination key (any two calls are a first call after history `pre` and a
second call after further history `mid`). -/
theorem task_data_unique_below_capacity :
    (∀ (seen : Finset CombinationKey) (o : Oracle),
      seen ⊆ (generate_task_data seen o).seen) ∧
    (∀ (seen0 : Finset CombinationKey) (pre mid : List Oracle) (o1 o2 : Oracle)
      (k1 k2 : CombinationKey),
      (seen_after seen0 pre).card < capacity →
      (seen_after (generate_task_data (seen_after seen0 pre) o1).seen mid).card
        < capacity →
      (generate_task_data (seen_after seen0 pre) o1).ret = some k1 →
      (generate_task_data
        (seen_after (generate_task_data (seen_after seen0 pre) o1).seen mid)
        o2).ret = some k2 →
      k1 ≠ k2) := by
  refine ⟨generate_task_data_subset, ?_⟩
  intro seen0 pre mid o1 o2 k1 k2 h1 h2 hr1 hr2
  obtain ⟨hk1_not, hseen1⟩ := generate_task_data_below h1 hr1
  obtain ⟨hk2_not, _⟩ := generate_task_data_below h2 hr2
  intro heq
  apply hk2_not
  rw [← heq]
  apply seen_after_subset mid
  rw [hseen1]
  exact Finset.mem_insert_self _ _

/-- Witness for C1: a concrete two-call run from the empty seen-set returning
two distinct keys. -/
theorem task_data_unique_below_capacity_witness :
    (⟨"square", "circle", "tiny", "small", "filled", "outline",
        (70, 130, 180)⟩ : CombinationKey) ≠
      ⟨"square", "circle", "tiny", "small", "filled", "outline",
        (220, 20, 60)⟩ := by
  refine task_data_unique_below_capacity.2 ∅ [] []
    ⟨[⟨"square", "circle", "tiny", "small", "filled", "outline", (70, 130, 180)⟩],
      ⟨"square", "circle", "tiny", "small", "filled", "outline", (70, 130, 180)⟩⟩
    ⟨[⟨"square", "circle", "tiny", "small", "filled", "outline", (220, 20, 60)⟩],
      ⟨"square", "circle", "tiny", "small", "filled", "outline", (220, 20, 60)⟩⟩
    _ _ (by decide) (by decide) (by decide) (by decide)

/-- C10: from any seen-set within capacity, the seen-set's size never exceeds
`num_shapes*(num_shapes-1)*num_transformations*num_colors`, and once it has
exactly capacity keys no subsequent call inserts anything: the seen-set stays
unchanged forever. -/
theorem seen_card_bounded (seen0 : Finset CombinationKey) (os os2 : List Oracle)
    (h : seen0.card ≤ capacity) :
    (seen_after seen0 os).card ≤ capacity ∧
    ((seen_after seen0 os).card = capacity →
      seen_after seen0 (os ++ os2) = seen_after seen0 os) := by
  constructor
  · exact seen_after_card_le os h
  · intro hcap
    rw [seen_after_append]
    exact seen_after_at_capacity os2 (by omega)

/-- Witness for C10 at the full key space (which has exactly capacity keys). -/
theorem seen_card_bounded_witness :
    (seen_after all_valid_keys []).card ≤ capacity ∧
    ((seen_after all_valid_keys []).card = capacity →
      seen_after all_valid_keys
          ([] ++ [⟨[], ⟨"square", "circle", "tiny", "small", "filled", "outline",
            (70, 130, 180)⟩⟩]) =
        seen_after all_valid_keys []) :=
  seen_card_bounded all_valid_keys []
    [⟨[], ⟨"square", "circle", "tiny", "small", "filled", "outline",
      (70, 130, 180)⟩⟩]
    (le_of_eq all_valid_keys_card)

/-- C3 counterexample: starting from a seen-set at full capacity (the whole
key space), two successive `_generate_task_data` calls BOTH print the
exhaustion warning — the notice is not emitted exactly once. -/
theorem exhaustion_notice_counterexample :
    (generate_task_data all_valid_keys
      ⟨[], ⟨"square", "circle", "tiny", "small", "filled", "outline",
        (70, 130, 180)⟩⟩).warned = true ∧
    (generate_task_data
      (generate_task_data all_valid_keys
        ⟨[], ⟨"square", "circle", "tiny", "small", "filled", "outline",
          (70, 130, 180)⟩⟩).seen
      ⟨[], ⟨"square", "circle", "tiny", "small", "filled", "outline",
        (70, 130, 180)⟩⟩).warned = true := by
  have hc : ¬ all_valid_keys.card < capacity := by
    rw [all_valid_keys_card]
    omega
  have h1 := generate_task_data_at_capacity
    (⟨[], ⟨"square", "circle", "tiny", "small", "filled", "outline",
      (70, 130, 180)⟩⟩ : Oracle) hc
  constructor
  · rw [h1]
    simp [all_valid_keys_card]
  · rw [h1]
    rw [generate_task_data_at_capacity _ hc]
    simp [all_valid_keys_card]

/-- C3 (amended): the exhaustion notice is printed on exactly those calls whose
seen-set has exactly `capacity` keys when the call is made — that is, on the
first call after the seen-set reaches capacity AND on every later call, not
only once. -/
theorem exhaustion_notice_iff_at_capacity (seen : Finset CombinationKey) (o : Oracle) :
    (generate_task_data seen o).warned = true ↔ seen.card = capacity := by
  by_cases hlt : seen.card < capacity
  · constructor
    · intro hw
      rw [generate_task_data_warned_below o hlt] at hw
      cases hw
    · intro he
      omega
  · rw [generate_task_data_at_capacity o hlt]
    simp

/-! ### Layout claims -/

/-- C5 counterexample: at the spec's reference configuration
(`image_size = (800, 400)`, `margin = 40`), the row-1 slot centers sit at
`y = 400 // 3 = 133`, which is not `height/3 = 400/3`. -/
theorem layout_row_center_counterexample :
    (render_initial_positions 800 400 40).A.2 = 133 ∧
    (render_initial_positions 800 400 40).A.2 ≠ (400 : ℚ) / 3 := by
  constructor <;> norm_num [render_initial_positions, Int.fdiv]

/-- C5 (amended): for every configuration, the six shape-slot centers of the
initial render equal those of the final render (`question1`/`question2`
coincide with `E`/`F`); row-1 centers sit at `⌊height/3⌋` and row-2 centers at
`⌊2*height/3⌋` (the integer divisions of the source, equal to `height/3` and
`2*height/3` exactly when divisible); and each step width is split 80/20
between shape-slot spacing and arrow width. -/
theorem layout_positions_agree (width height margin : ℤ) :
    ((render_initial_positions width height margin).A =
        (render_final_positions width height margin).A ∧
      (render_initial_positions width height margin).B =
        (render_final_positions width height margin).B ∧
      (render_initial_positions width height margin).C =
        (render_final_positions width height margin).C ∧
      (render_initial_positions width height margin).D =
        (render_final_positions width height margin).D ∧
      (render_initial_positions width height margin).question1 =
        (render_final_positions width height margin).E ∧
      (render_initial_positions width height margin).question2 =
        (render_final_positions width height margin).F) ∧
    ((render_initial_positions width height margin).A.2 =
        ((height.fdiv 3 : ℤ) : ℚ) ∧
      (render_initial_positions width height margin).B.2 =
        ((height.fdiv 3 : ℤ) : ℚ) ∧
      (render_initial_positions width height margin).C.2 =
        ((height.fdiv 3 : ℤ) : ℚ) ∧
      (render_initial_positions width height margin).D.2 =
        (((2 * height).fdiv 3 : ℤ) : ℚ) ∧
      (render_initial_positions width height margin).question1.2 =
        (((2 * height).fdiv 3 : ℤ) : ℚ) ∧
      (render_initial_positions width height margin).question2.2 =
        (((2 * height).fdiv 3 : ℤ) : ℚ)) ∧
    (shape_spacing width margin + arrow_width width margin =
        (step_width width margin : ℚ) ∧
      shape_spacing width margin = 4 * arrow_width width margin) := by
  refine ⟨⟨rfl, rfl, rfl, rfl, rfl, rfl⟩, ⟨rfl, rfl, rfl, rfl, rfl, rfl⟩, ?_, ?_⟩
  · unfold shape_spacing arrow_width
    ring
  · unfold shape_spacing arrow_width
    ring

/-! ### Interpolation claims -/

lemma step_progress_zero {n : ℕ} (h : 2 ≤ n) : step_progress n 0 = 0 := by
  unfold step_progress
  rw [if_pos (by omega : 1 < n)]
  simp

lemma step_progress_last {n : ℕ} (h : 1 ≤ n) : step_progress n (n - 1) = 1 := by
  unfold step_progress
  by_cases h1 : 1 < n
  · rw [if_pos h1]
    have hne : ((n - 1 : ℕ) : ℚ) ≠ 0 := Nat.cast_ne_zero.mpr (by omega)
    exact div_self hne
  · rw [if_neg h1]

lemma step_progress_nonneg (n i : ℕ) : 0 ≤ step_progress n i := by
  unfold step_progress
  by_cases h1 : 1 < n
  · rw [if_pos h1]
    exact div_nonneg (Nat.cast_nonneg i) (Nat.cast_nonneg _)
  · rw [if_neg h1]
    norm_num

lemma step_progress_mono (n : ℕ) {i j : ℕ} (h : i ≤ j) :
    step_progress n i ≤ step_progress n j := by
  unfold step_progress
  by_cases h1 : 1 < n
  · rw [if_pos h1, if_pos h1]
    have hc : (0 : ℚ) < ((n - 1 : ℕ) : ℚ) := Nat.cast_pos.mpr (by omega)
    have hij : (i : ℚ) ≤ (j : ℚ) := by exact_mod_cast h
    exact (div_le_div_iff_of_pos_right hc).mpr hij
  · rw [if_neg h1, if_neg h1]

lemma int_of_rat_intCast (z : ℤ) : int_of_rat (z : ℚ) = z := by
  unfold int_of_rat
  by_cases h : (0 : ℚ) ≤ (z : ℚ)
  · rw [if_pos h, Int.floor_intCast]
  · rw [if_neg h, ← Int.cast_neg, Int.floor_intCast]
    omega

lemma int_of_rat_of_nonneg {q : ℚ} (h : 0 ≤ q) : int_of_rat q = ⌊q⌋ := if_pos h

/-- C6 counterexample: with `base_shape_size = 75` and
`scale_from = 1.3` ("large"), frame 0 of a 25-frame scale-reveal draws size
`int(75 * 1.3) = 97`, not the claimed exact product `75 × 1.3 = 97.5`: the
drawn size is the int-truncation of the interpolated product. -/
theorem scale_reveal_counterexample :
    scale_phase_size 75 (13/10) (19/10) 25 0 = 97 ∧
    (97 : ℚ) ≠ 75 * (13/10) := by
  constructor
  · norm_num [scale_phase_size, step_progress, int_of_rat]
  · norm_num

/-- C6 (amended): frame `i` of the scale-reveal phase draws the first unknown
at the int-truncation of `base_size × (scale_from + (scale_to − scale_from)·t)`
with `t = i/(step_frames−1)` (`t = 1` when `step_frames = 1`): for
`step_frames ≥ 2` frame 0 uses exactly `scale_from` and the last frame exactly
`scale_to` (for `step_frames = 1` the single frame uses `scale_to`), and the
drawn size equals `base_size × scale` exactly whenever that product is an
integer. -/
theorem scale_reveal_boundaries (base_shape_size : ℤ) (scale_from scale_to : ℚ)
    (step_frames : ℕ) :
    (2 ≤ step_frames →
      scale_phase_size base_shape_size scale_from scale_to step_frames 0 =
        int_of_rat ((base_shape_size : ℚ) * scale_from)) ∧
    (1 ≤ step_frames →
      scale_phase_size base_shape_size scale_from scale_to step_frames
          (step_frames - 1) =
        int_of_rat ((base_shape_size : ℚ) * scale_to)) ∧
    (∀ z : ℤ, 2 ≤ step_frames → (base_shape_size : ℚ) * scale_from = (z : ℚ) →
      scale_phase_size base_shape_size scale_from scale_to step_frames 0 = z) ∧
    (∀ z : ℤ, 1 ≤ step_frames → (base_shape_size : ℚ) * scale_to = (z : ℚ) →
      scale_phase_size base_shape_size scale_from scale_to step_frames
          (step_frames - 1) = z) := by
  have h0 : ∀ _ : 2 ≤ step_frames,
      scale_phase_size base_shape_size scale_from scale_to step_frames 0 =
        int_of_rat ((base_shape_size : ℚ) * scale_from) := by
    intro h
    unfold scale_phase_size
    rw [step_progress_zero h]
    exact congrArg int_of_rat (by ring)
  have hl : ∀ _ : 1 ≤ step_frames,
      scale_phase_size base_shape_size scale_from scale_to step_frames
          (step_frames - 1) =
        int_of_rat ((base_shape_size : ℚ) * scale_to) := by
    intro h
    unfold scale_phase_size
    rw [step_progress_last h]
    exact congrArg int_of_rat (by ring)
  refine ⟨h0, hl, ?_, ?_⟩
  · intro z h hz
    rw [h0 h, hz, int_of_rat_intCast]
  · intro z h hz
    rw [hl h, hz, int_of_rat_intCast]

/-- Witness for C6 (amended) with `base = 80` (`80·0.6 = 48`, `80·1.9 = 152`
both integral) over 25 frames. -/
theorem scale_reveal_boundaries_witness :
    scale_phase_size 80 (3/5) (19/10) 25 0 = 48 ∧
    scale_phase_size 80 (3/5) (19/10) 25 24 = 152 := by
  have h := scale_reveal_boundaries 80 (3/5) (19/10) 25
  exact ⟨h.2.2.1 48 (by norm_num) (by norm_num),
    h.2.2.2 152 (by norm_num) (by norm_num)⟩

/-- C7: in the style-reveal phase, every frame with progress `t < 0.5` draws
the second unknown filled with RGBA alpha `int(255·(1−2t))` — which is 255 at
`t = 0`, stays within `[0, 255]`, and is antitone in the frame index — while
keeping the pre-transformation outline width; every frame with `t ≥ 0.5`
draws it with no fill and the post-transformation outline width: a
discontinuous switch at the midpoint. -/
theorem style_reveal_midpoint_switch (color : Color)
    (style_from_config style_to_config : FillStyle) (step_frames i j : ℕ) :
    (step_progress step_frames i < 1/2 →
      style_phase_draw color style_from_config style_to_config step_frames i =
        ⟨some (Paint.rgba color
            (int_of_rat (255 * (1 - step_progress step_frames i * 2)))),
          style_from_config.outline_width⟩ ∧
      0 ≤ int_of_rat (255 * (1 - step_progress step_frames i * 2)) ∧
      int_of_rat (255 * (1 - step_progress step_frames i * 2)) ≤ 255) ∧
    (1/2 ≤ step_progress step_frames i →
      style_phase_draw color style_from_config style_to_config step_frames i =
        ⟨none, style_to_config.outline_width⟩) ∧
    (2 ≤ step_frames →
      style_phase_draw color style_from_config style_to_config step_frames 0 =
        ⟨some (Paint.rgba color 255), style_from_config.outline_width⟩) ∧
    (i ≤ j → step_progress step_frames j < 1/2 →
      int_of_rat (255 * (1 - step_progress step_frames j * 2)) ≤
        int_of_rat (255 * (1 - step_progress step_frames i * 2))) := by
  refine ⟨?_, ?_, ?_, ?_⟩
  · intro h
    have ht0 := step_progress_nonneg step_frames i
    refine ⟨?_, ?_, ?_⟩
    · unfold style_phase_draw
      rw [if_pos h]
    · rw [int_of_rat_of_nonneg (by nlinarith)]
      exact Int.floor_nonneg.mpr (by nlinarith)
    · rw [int_of_rat_of_nonneg (by nlinarith)]
      have hle : (255 : ℚ) * (1 - step_progress step_frames i * 2) ≤ 255 := by
        nlinarith
      have := Int.floor_le_floor hle
      simpa using this
  · intro h
    unfold style_phase_draw
    rw [if_neg (not_lt.mpr h)]
  · intro h2
    have h0 := step_progress_zero h2
    unfold style_phase_draw
    rw [h0]
    rw [if_pos (by norm_num : (0 : ℚ) < 1/2)]
    have h255 : int_of_rat (255 * (1 - (0 : ℚ) * 2)) = 255 := by
      have he : (255 : ℚ) * (1 - (0 : ℚ) * 2) = ((255 : ℤ) : ℚ) := by norm_num
      rw [he, int_of_rat_intCast]
    rw [h255]
  · intro hij hj
    have hmono := step_progress_mono step_frames hij
    have hti0 := step_progress_nonneg step_frames i
    rw [int_of_rat_of_nonneg (by nlinarith), int_of_rat_of_nonneg (by nlinarith)]
    exact Int.floor_le_floor (by nlinarith)

/-- Witness for C7 over a 25-frame phase: frame 0 draws full fill with the
pre-style width 2, frame 20 (progress 20/24 ≥ 1/2) draws no fill with the
post-style width 3. -/
theorem style_reveal_midpoint_switch_witness :
    style_phase_draw (70, 130, 180) ⟨true, 2⟩ ⟨false, 3⟩ 25 0 =
      ⟨some (Paint.rgba (70, 130, 180) 255), 2⟩ ∧
    style_phase_draw (70, 130, 180) ⟨true, 2⟩ ⟨false, 3⟩ 25 20 = ⟨none, 3⟩ := by
  constructor
  · exact (style_reveal_midpoint_switch (70, 130, 180) ⟨true, 2⟩ ⟨false, 3⟩
      25 0 0).2.2.1 (by norm_num)
  · refine (style_reveal_midpoint_switch (70, 130, 180) ⟨true, 2⟩ ⟨false, 3⟩
      25 20 0).2.1 ?_
    norm_num [step_progress]

/-! ### Rasterizer claims -/

/-- C8 counterexample: `_draw_base_shape` does not reject bad inputs: a
negative size still emits a (degenerate) rectangle primitive instead of being
rejected, and an unknown shape kind silently emits nothing and returns
normally instead of signalling an error. -/
theorem rasterizer_no_rejection_counterexample :
    draw_base_shape "square" 0 0 (-2) none (0, 0, 0) 1 (fun _ => 0) (fun _ => 0) =
      [DrawOp.rect 1 1 (-1) (-1) none (0, 0, 0) 1] ∧
    "blob" ∉ base_shapes ∧
    draw_base_shape "blob" 0 0 10 none (0, 0, 0) 1 (fun _ => 0) (fun _ => 0) = [] := by
  have hd : Int.fdiv (-2) 2 = -1 := by decide
  have hb1 : ("blob" : String) ≠ "square" := by decide
  have hb2 : ("blob" : String) ≠ "circle" := by decide
  have hb3 : ("blob" : String) ≠ "triangle" := by decide
  have hb4 : ("blob" : String) ≠ "diamond" := by decide
  have hb5 : ("blob" : String) ≠ "pentagon" := by decide
  have hb6 : ("blob" : String) ≠ "hexagon" := by decide
  have hb7 : ("blob" : String) ≠ "rectangle" := by decide
  have hb8 : ("blob" : String) ≠ "oval" := by decide
  have hb9 : ("blob" : String) ≠ "star" := by decide
  have hb10 : ("blob" : String) ≠ "heart" := by decide
  have hb11 : ("blob" : String) ≠ "cross" := by decide
  have hb12 : ("blob" : String) ≠ "arrow" := by decide
  have hb13 : ("blob" : String) ≠ "trapezoid" := by decide
  have hb14 : ("blob" : String) ≠ "rhombus" := by decide
  have hb15 : ("blob" : String) ≠ "octagon" := by decide
  have hb16 : ("blob" : String) ≠ "crescent" := by decide
  have hb17 : ("blob" : String) ≠ "plus" := by decide
  have hb18 : ("blob" : String) ≠ "minus" := by decide
  have hb19 : ("blob" : String) ≠ "L_shape" := by decide
  have hb20 : ("blob" : String) ≠ "T_shape" := by decide
  refine ⟨?_, by decide, ?_⟩
  · norm_num [draw_base_shape, hd]
  · norm_num [draw_base_shape, hb1, hb2, hb3, hb4, hb5, hb6, hb7, hb8, hb9, hb10, hb11, hb12, hb13, hb14, hb15, hb16, hb17, hb18, hb19, hb20]

/-- C8 (amended): the rasterizer is total and signals no error: every known
shape kind emits at least one drawing primitive for every size (positive or
not), and an unknown shape kind emits no primitive and returns normally. -/
theorem rasterizer_totality (shape : String) (x y : ℚ) (size : ℤ)
    (fill_color : Option Paint) (outline_color : Color) (outline_width : ℕ)
    (cospi sinpi : ℚ → ℚ) :
    (shape ∉ base_shapes →
      draw_base_shape shape x y size fill_color outline_color outline_width
        cospi sinpi = []) ∧
    (shape ∈ base_shapes →
      draw_base_shape shape x y size fill_color outline_color outline_width
        cospi sinpi ≠ []) := by
  constructor
  · intro h
    simp only [base_shapes, List.mem_cons, List.not_mem_nil, or_false, not_or] at h
    obtain ⟨h1, h2, h3, h4, h5, h6, h7, h8, h9, h10,
      h11, h12, h13, h14, h15, h16, h17, h18, h19, h20⟩ := h
    simp [draw_base_shape, h1, h2, h3, h4, h5, h6, h7, h8, h9, h10,
      h11, h12, h13, h14, h15, h16, h17, h18, h19, h20]
  · intro h
    simp only [base_shapes, List.mem_cons, List.not_mem_nil, or_false] at h
    rcases h with rfl | rfl | rfl | rfl | rfl | rfl | rfl | rfl | rfl | rfl |
      rfl | rfl | rfl | rfl | rfl | rfl | rfl | rfl | rfl | rfl <;>
      simp [draw_base_shape]

/-- Witness for C8 (amended) at a known and an unknown kind. -/
theorem rasterizer_totality_witness :
    draw_base_shape "square" 0 0 10 none (0, 0, 0) 1 (fun _ => 0) (fun _ => 0) ≠ [] ∧
    draw_base_shape "blob" 0 0 10 none (0, 0, 0) 1 (fun _ => 0) (fun _ => 0) = [] := by
  constructor
  · exact (rasterizer_totality "square" 0 0 10 none (0, 0, 0) 1
      (fun _ => 0) (fun _ => 0)).2 (by decide)
  · exact (rasterizer_totality "blob" 0 0 10 none (0, 0, 0) 1
      (fun _ => 0) (fun _ => 0)).1 (by decide)

/-- C9 counterexample: at `size = 24` the `L_shape` bars are
`(24//2)//3 = 4` units thick — neither `size/3 = 8` nor `size/4 = 6`. -/
theorem composite_thickness_counterexample :
    draw_base_shape "L_shape" 0 0 24 none (0, 0, 0) 1 (fun _ => 0) (fun _ => 0) =
      [DrawOp.rect (-12) (-12) (-8) 12 none (0, 0, 0) 1,
       DrawOp.rect (-12) 8 12 12 none (0, 0, 0) 1] ∧
    (-8 : ℚ) - (-12) = 4 ∧ (4 : ℚ) ≠ 24 / 3 ∧ (4 : ℚ) ≠ 24 / 4 := by
  have hd1 : Int.fdiv 24 2 = 12 := by decide
  have hd2 : Int.fdiv 12 3 = 4 := by decide
  have hl1 : ("L_shape" : String) ≠ "square" := by decide
  have hl2 : ("L_shape" : String) ≠ "circle" := by decide
  have hl3 : ("L_shape" : String) ≠ "triangle" := by decide
  have hl4 : ("L_shape" : String) ≠ "diamond" := by decide
  have hl5 : ("L_shape" : String) ≠ "pentagon" := by decide
  have hl6 : ("L_shape" : String) ≠ "hexagon" := by decide
  have hl7 : ("L_shape" : String) ≠ "rectangle" := by decide
  have hl8 : ("L_shape" : String) ≠ "oval" := by decide
  have hl9 : ("L_shape" : String) ≠ "star" := by decide
  have hl10 : ("L_shape" : String) ≠ "heart" := by decide
  have hl11 : ("L_shape" : String) ≠ "cross" := by decide
  have hl12 : ("L_shape" : String) ≠ "arrow" := by decide
  have hl13 : ("L_shape" : String) ≠ "trapezoid" := by decide
  have hl14 : ("L_shape" : String) ≠ "rhombus" := by decide
  have hl15 : ("L_shape" : String) ≠ "octagon" := by decide
  have hl16 : ("L_shape" : String) ≠ "crescent" := by decide
  have hl17 : ("L_shape" : String) ≠ "plus" := by decide
  have hl18 : ("L_shape" : String) ≠ "minus" := by decide
  refine ⟨?_, by norm_num, by norm_num, by norm_num⟩
  norm_num [draw_base_shape, hd1, hd2, hl1, hl2, hl3, hl4, hl5, hl6, hl7, hl8, hl9, hl10, hl11, hl12, hl13, hl14, hl15, hl16, hl17, hl18]

/-- C9 (amended): cross, plus, L-shape and T-shape each decompose into exactly
two axis-aligned rectangles.  With `h = size // 2`, the cross bars span
`2·(h//4)` (full width ≈ size/4) and the plus bars `2·(h//3)` (≈ size/3),
while the L bars are `h//3` thick (≈ size/6) and the T top bar is `h//3`
thick with a stem spanning `2·((h//3)//2)`. -/
theorem composite_rectangles (x y : ℚ) (size : ℤ) (fill_color : Option Paint)
    (outline_color : Color) (outline_width : ℕ) (cospi sinpi : ℚ → ℚ) :
    draw_base_shape "cross" x y size fill_color outline_color outline_width
        cospi sinpi =
      [DrawOp.rect (x - ((size.fdiv 2).fdiv 4 : ℤ)) (y - (size.fdiv 2 : ℤ))
        (x + ((size.fdiv 2).fdiv 4 : ℤ)) (y + (size.fdiv 2 : ℤ))
        fill_color outline_color outline_width,
       DrawOp.rect (x - (size.fdiv 2 : ℤ)) (y - ((size.fdiv 2).fdiv 4 : ℤ))
        (x + (size.fdiv 2 : ℤ)) (y + ((size.fdiv 2).fdiv 4 : ℤ))
        fill_color outline_color outline_width] ∧
    draw_base_shape "plus" x y size fill_color outline_color outline_width
        cospi sinpi =
      [DrawOp.rect (x - ((size.fdiv 2).fdiv 3 : ℤ)) (y - (size.fdiv 2 : ℤ))
        (x + ((size.fdiv 2).fdiv 3 : ℤ)) (y + (size.fdiv 2 : ℤ))
        fill_color outline_color outline_width,
       DrawOp.rect (x - (size.fdiv 2 : ℤ)) (y - ((size.fdiv 2).fdiv 3 : ℤ))
        (x + (size.fdiv 2 : ℤ)) (y + ((size.fdiv 2).fdiv 3 : ℤ))
        fill_color outline_color outline_width] ∧
    draw_base_shape "L_shape" x y size fill_color outline_color outline_width
        cospi sinpi =
      [DrawOp.rect (x - (size.fdiv 2 : ℤ)) (y - (size.fdiv 2 : ℤ))
        (x - (size.fdiv 2 : ℤ) + ((size.fdiv 2).fdiv 3 : ℤ)) (y + (size.fdiv 2 : ℤ))
        fill_color outline_color outline_width,
       DrawOp.rect (x - (size.fdiv 2 : ℤ))
        (y + (size.fdiv 2 : ℤ) - ((size.fdiv 2).fdiv 3 : ℤ)) (x + (size.fdiv 2 : ℤ))
        (y + (size.fdiv 2 : ℤ)) fill_color outline_color outline_width] ∧
    draw_base_shape "T_shape" x y size fill_color outline_color outline_width
        cospi sinpi =
      [DrawOp.rect (x - (size.fdiv 2 : ℤ)) (y - (size.fdiv 2 : ℤ))
        (x + (size.fdiv 2 : ℤ)) (y - (size.fdiv 2 : ℤ) + ((size.fdiv 2).fdiv 3 : ℤ))
        fill_color outline_color outline_width,
       DrawOp.rect (x - (((size.fdiv 2).fdiv 3).fdiv 2 : ℤ)) (y - (size.fdiv 2 : ℤ))
        (x + (((size.fdiv 2).fdiv 3).fdiv 2 : ℤ)) (y + (size.fdiv 2 : ℤ))
        fill_color outline_color outline_width] :=
  ⟨rfl, rfl, rfl, rfl⟩
